import Mathlib

/-!
Verification of the line-parsing core of a small interactive shell
(tokenizer, quote/escape resolver, command builder, dispatcher).

Strings from the Rust sources are modelled as List Char.  The Rust code
indexes string slices with positions obtained from chars().enumerate(),
which count characters, while Rust slicing takes byte offsets into the
UTF-8 encoding; the embedding keeps this distinction: charBytes gives the
UTF-8 byte width of a character and charIdxOfByte converts a byte offset
back to a character index when (and only when) the offset falls on a
character boundary.  A slice at a non-boundary offset aborts the process
in Rust; the embedding returns a distinguished panic value there.
-/

/-- UTF-8 byte width of a character (the width Rust str::len counts). -/
def charBytes (c : Char) : Nat :=
  if c.val < 0x80 then 1
  else if c.val < 0x800 then 2
  else if c.val < 0x10000 then 3
  else 4

/-- Total UTF-8 byte length of a character list (Rust str::len). -/
def utf8Len (s : List Char) : Nat := (s.map charBytes).sum

/-- Character index corresponding to byte offset i in s, when i is a
character boundary of the UTF-8 encoding of s; none otherwise (a Rust
slice at such an offset panics). -/
def charIdxOfByte : List Char → Nat → Option Nat
  | _, 0 => some 0
  | [], _ + 1 => none
  | c :: rest, i + 1 =>
    if charBytes c ≤ i + 1 then
      (charIdxOfByte rest (i + 1 - charBytes c)).map (· + 1)
    else none

/-- Unicode White_Space code points: Rust char::is_whitespace. -/
def isUnicodeWS (c : Char) : Bool :=
  c.toNat ∈ [0x09, 0x0A, 0x0B, 0x0C, 0x0D, 0x20, 0x85, 0xA0, 0x1680,
    0x2000, 0x2001, 0x2002, 0x2003, 0x2004, 0x2005, 0x2006, 0x2007,
    0x2008, 0x2009, 0x200A, 0x2028, 0x2029, 0x202F, 0x205F, 0x3000]

/-- Rust char::is_ascii_whitespace: space, tab, newline, form feed, carriage return. -/
def isAsciiWS (c : Char) : Bool :=
  c = ' ' ∨ c = '\t' ∨ c = '\n' ∨ c = '\x0C' ∨ c = '\r'

/-- Quote kind (enum Quote in tokenize.rs and main.rs). -/
inductive Quote where
  | singleQuote
  | doubleQuote
  deriving DecidableEq, Repr

/-- Quote::ch. -/
def Quote.ch : Quote → Char
  | .singleQuote => '\''
  | .doubleQuote => '"'

/-- Quote tracking shared by both tokenizers: a backslash makes the next
character inert; an unescaped quote character opens its context, closes a
matching open context, and is inert inside the other context.  Returns
the quote context after scanning the whole line. -/
def quoteScan : List Char → Bool → Option Quote → Option Quote
  | [], _, q => q
  | c :: rest, esc, q =>
    if esc then quoteScan rest false q
    else if c = '\\' then quoteScan rest true q
    else if c = '\'' then
      quoteScan rest false
        (match q with
         | none => some .singleQuote
         | some .singleQuote => none
         | some x => some x)
    else if c = '"' then
      quoteScan rest false
        (match q with
         | none => some .doubleQuote
         | some .doubleQuote => none
         | some x => some x)
    else quoteScan rest false q

/-- A line has balanced quoting when scanning it leaves no quote context open. -/
def balancedQuoting (s : List Char) : Bool := (quoteScan s false none) = none

/-- A line reaches end-of-input with a quote still open. -/
def endsInQuote (s : List Char) : Bool := (quoteScan s false none).isSome

/-- Outcome of a fallible parsing step that may also abort: panic models a
Rust panic (out-of-bounds or non-boundary slice), fail models a parser
returning None. -/
inductive PRes (α : Type) where
  | panic
  | fail
  | ok (a : α)
  deriving DecidableEq, Repr

namespace Tok

/-- enum ParseError of tokenize.rs. -/
inductive ParseError where
  | quoteMissing
  | unknownToken
  | failedToParse
  deriving DecidableEq, Repr

/-- Result of tokenize.rs tokenize, with the extra panic outcome. -/
inductive Res (α : Type) where
  | panic
  | err (e : ParseError)
  | ok (a : α)
  deriving DecidableEq, Repr

/-- Character index of the first unescaped terminator (whitespace, quote
or redirect character) in raw_word's scan; backslash makes the following
character part of the run. -/
def findTermIdx : List Char → Bool → Nat → Option Nat
  | [], _, _ => none
  | c :: rest, esc, i =>
    if esc then findTermIdx rest false (i + 1)
    else if c = '\\' then findTermIdx rest true (i + 1)
    else if isUnicodeWS c ∨ c = '\'' ∨ c = '"' ∨ c = '>' then some i
    else findTermIdx rest false (i + 1)

/-- raw_word of tokenize.rs: a maximal escape-aware run of characters that
are not unescaped whitespace, quotes or the redirect character.  The Rust
code slices at the enumerate index of the terminator, a character count
used as a byte offset: when that offset is not a character boundary the
slice panics. -/
def raw_word (s : List Char) : PRes (List Char × List Char) :=
  if s = [] then .fail
  else
    match findTermIdx s false 0 with
    | none => .ok (s, [])
    | some 0 => .fail
    | some i =>
      match charIdxOfByte s i with
      | some k => .ok (s.take k, s.drop k)
      | none => .panic

/-- Enumerate index of the closing quote character in the tail of a quoted
run (counting from 1, the opening quote having consumed index 0);
backslash escapes the following character. -/
def findCloseIdx (q : Char) : List Char → Bool → Nat → Option Nat
  | [], _, _ => none
  | c :: rest, esc, i =>
    if esc then findCloseIdx q rest false (i + 1)
    else if c = '\\' then findCloseIdx q rest true (i + 1)
    else if c = q then some i
    else findCloseIdx q rest false (i + 1)

/-- quoted of tokenize.rs: an opening quote character, an escape-aware span,
and the matching closing quote; the token retains both delimiters.  The
Rust code slices at enumerate index + 1 used as a byte offset. -/
def quoted (q : Char) (s : List Char) : PRes (List Char × List Char) :=
  match s with
  | [] => .fail
  | c :: rest =>
    if c ≠ q then .fail
    else
      match findCloseIdx q rest false 1 with
      | none => .fail
      | some i =>
        match charIdxOfByte s (i + 1) with
        | some k => .ok (s.take k, s.drop k)
        | none => .panic

/-- redirect of tokenize.rs: the two-character or one-character redirect operator. -/
def redirect (s : List Char) : PRes (List Char × List Char) :=
  match s with
  | '>' :: '>' :: rest => .ok (['>', '>'], rest)
  | '>' :: rest => .ok (['>'], rest)
  | _ => .fail

/-- choice of tokenize.rs: try the first, fall back on the second;
a panic in the first propagates. -/
def choice (p1 p2 : List Char → PRes (List Char × List Char))
    (s : List Char) : PRes (List Char × List Char) :=
  match p1 s with
  | .fail => p2 s
  | r => r

/-- lexeme of tokenize.rs: skip leading Unicode whitespace (str::trim_start). -/
def lexeme (p : List Char → PRes (List Char × List Char))
    (s : List Char) : PRes (List Char × List Char) :=
  p (s.dropWhile isUnicodeWS)

/-- many of tokenize.rs, with fuel: apply the parser until it fails,
collecting results; a panic propagates.  The fuel is always instantiated
above the input length; every elementary parser consumes on success, so
exhaustion is unreachable there. -/
def many (p : List Char → PRes (List Char × List Char)) :
    Nat → List Char → PRes (List (List Char) × List Char)
  | 0, s => .ok ([], s)
  | fuel + 1, s =>
    match p s with
    | .panic => .panic
    | .fail => .ok ([], s)
    | .ok (v, rest) =>
      match many p fuel rest with
      | .panic => .panic
      | .fail => .ok ([v], rest)
      | .ok (vs, r) => .ok (v :: vs, r)

/-- The elementary run of a word: choice!(quoted single, quoted double, raw_word). -/
def wordElem : List Char → PRes (List Char × List Char) :=
  choice (choice (quoted '\'') (quoted '"')) raw_word

/-- word of tokenize.rs: one elementary run followed by as many further
runs as parse, then a re-slice of the input at the total byte length of
the consumed runs. -/
def word (s : List Char) : PRes (List Char × List Char) :=
  match wordElem s with
  | .panic => .panic
  | .fail => .fail
  | .ok (f, rest1) =>
    match many wordElem (rest1.length + 1) rest1 with
    | .panic => .panic
    | .fail => .fail
    | .ok (rs, _) =>
      let endB := utf8Len f + (rs.map utf8Len).sum
      match charIdxOfByte s endB with
      | some k => .ok (s.take k, s.drop k)
      | none => .panic

/-- One token: a word or a redirect operator, each behind whitespace skipping. -/
def tokElem : List Char → PRes (List Char × List Char) :=
  choice (lexeme word) (lexeme redirect)

/-- tokenize of tokenize.rs: many tokens, then trailing whitespace; any
unconsumed suffix is UnknownToken. -/
def tokenize (src : List Char) : Res (List (List Char)) :=
  match many tokElem (src.length + 1) src with
  | .panic => .panic
  | .fail => .err .failedToParse
  | .ok (toks, rest) =>
    if rest.dropWhile isUnicodeWS = [] then .ok toks else .err .unknownToken

end Tok


namespace Sh

/-- State of the quote/escape resolver (struct UnescapeState of
unescape.rs and main.rs). -/
structure UnescapeState where
  escape : Bool
  is_in_quote : Option Quote
  deriving DecidableEq, Repr

/-- The to_escape computation of unescape_inside: whether a backslash in
the given quote context, looking at the peeked next character, starts an
escape. -/
def toEscape (q : Option Quote) (peek : Option Char) : Bool :=
  match q with
  | none => true
  | some .singleQuote => peek = some '\''
  | some .doubleQuote => peek = some '"' ∨ peek = some '\\'

/-- unescape_inside of unescape.rs, duplicated verbatim in main.rs: one
step of the resolver on a character, the peeked next character and the
current state; returns the emitted character, if any, and the new state. -/
def unescape_inside (ch : Char) (peek : Option Char) (state : UnescapeState) :
    Option Char × UnescapeState :=
  if state.escape then
    (some ch, { state with escape := false })
  else if ch = '\\' ∧ toEscape state.is_in_quote peek then
    (none, { state with escape := true })
  else if ch = '\'' ∧ state.is_in_quote = none then
    (none, { state with is_in_quote := some .singleQuote })
  else if ch = '\'' ∧ state.is_in_quote = some .singleQuote then
    (none, { state with is_in_quote := none })
  else if ch = '"' ∧ state.is_in_quote = none then
    (none, { state with is_in_quote := some .doubleQuote })
  else if ch = '"' ∧ state.is_in_quote = some .doubleQuote then
    (none, { state with is_in_quote := none })
  else
    (some ch, state)

/-- Driver loop of unescape: feed each character with a peek at the next,
collecting emitted characters. -/
def unescapeAux : List Char → UnescapeState → List Char
  | [], _ => []
  | c :: rest, st =>
    let r := unescape_inside c rest.head? st
    match r.1 with
    | some o => o :: unescapeAux rest r.2
    | none => unescapeAux rest r.2

/-- unescape of unescape.rs and main.rs: resolve one raw token to its
literal value; total by construction. -/
def unescape (src : List Char) : List Char := unescapeAux src ⟨false, none⟩

/-- enum ParseError of main.rs (only one variant). -/
inductive ParseError where
  | quoteMissing
  deriving DecidableEq, Repr

/-- Result of the main.rs tokenizer, with the extra panic outcome. -/
inductive Res (α : Type) where
  | panic
  | err (e : ParseError)
  | ok (a : α)
  deriving DecidableEq, Repr

/-- Loop body of tokenize in main.rs.  Walks the characters with their
enumerate index, an optional start index of the current token, the quote
context and the escape flag, accumulating pushed tokens.  Token pushes
slice the source at the recorded enumerate indices, character counts that
Rust uses as byte offsets: a push at a non-boundary offset panics. -/
def tokenizeAux (src : List Char) :
    List Char → Nat → Option Nat → Option Quote → Bool →
    List (List Char) → Res (List (List Char))
  | [], _, start, inq, _, acc =>
    match start with
    | some si =>
      if inq.isSome then .err .quoteMissing
      else
        match charIdxOfByte src si with
        | some k => .ok (acc ++ [src.drop k])
        | none => .panic
    | none => .ok acc
  | c :: rest, idx, start, inq, esc, acc =>
    if esc then tokenizeAux src rest (idx + 1) start inq false acc
    else if c = '\\' then tokenizeAux src rest (idx + 1) start inq true acc
    else
      let inq' :=
        if c = '\'' then
          match inq with
          | none => some Quote.singleQuote
          | some .singleQuote => none
          | some q => some q
        else if c = '"' then
          match inq with
          | none => some Quote.doubleQuote
          | some .doubleQuote => none
          | some q => some q
        else inq
      if isAsciiWS c then
        if inq'.isSome then tokenizeAux src rest (idx + 1) start inq' false acc
        else
          match start with
          | some si =>
            match charIdxOfByte src si, charIdxOfByte src idx with
            | some a, some b =>
              tokenizeAux src rest (idx + 1) none inq' false (acc ++ [(src.take b).drop a])
            | _, _ => .panic
          | none => tokenizeAux src rest (idx + 1) none inq' false acc
      else
        match start with
        | none => tokenizeAux src rest (idx + 1) (some idx) inq' false acc
        | some si => tokenizeAux src rest (idx + 1) (some si) inq' false acc

/-- tokenize of main.rs: whitespace splitting aware of quotes and escapes;
end-of-input inside a quote is QuoteMissing. -/
def tokenize (src : List Char) : Res (List (List Char)) :=
  tokenizeAux src src 0 none none false []

/-- parse of main.rs: tokenize, then resolve each raw token. -/
def parse (src : String) : Res (List String) :=
  match tokenize src.data with
  | .panic => .panic
  | .err e => .err e
  | .ok toks => .ok (toks.map (fun t => String.mk (unescape t)))

end Sh


/-- File metadata as consulted by which_internal: regular-file flag and
permission mode bits (fs::metadata). -/
structure FileMeta where
  is_file : Bool
  mode : Nat
  deriving DecidableEq, Repr

/-- Path::new(dir).join(cmd): an absolute second component replaces the
first; joining onto the empty path yields the component; otherwise the
components are separated by a slash. -/
def joinPath (dir cmd : String) : String :=
  if cmd.data.head? = some '/' then cmd
  else if dir.data = [] then cmd
  else if dir.data.getLast? = some '/' then dir ++ cmd
  else dir ++ "/" ++ cmd

/-- str::split on the colon character: always at least one piece; an empty
input yields the single empty piece. -/
def splitColonAux : List Char → List Char → List String
  | [], cur => [String.mk cur.reverse]
  | c :: rest, cur =>
    if c = ':' then String.mk cur.reverse :: splitColonAux rest []
    else splitColonAux rest (c :: cur)

/-- PATH split into its colon-separated directory entries. -/
def splitColon (s : String) : List String := splitColonAux s.data []

/-- Loop body of which_internal: try each directory in order; a candidate
is returned when its metadata exists, is a regular file and has any
execute permission bit set. -/
def whichGo (fs : String → Option FileMeta) (cmd : String) :
    List String → Option String
  | [] => none
  | d :: ds =>
    let p := joinPath d cmd
    match fs p with
    | none => whichGo fs cmd ds
    | some m =>
      if m.is_file ∧ m.mode &&& 0o111 ≠ 0 then some p else whichGo fs cmd ds

/-- which_internal of main.rs, with the filesystem metadata oracle made an
explicit argument: search the colon-separated directory list for an
executable regular file named cmd; first match wins. -/
def which_internal (fs : String → Option FileMeta) (path cmd : String) :
    Option String :=
  whichGo fs cmd (splitColon path)

/-- i32::from_str: optional sign, one or more decimal digits, nothing
else, value within the i32 range; the error strings are the Display
renderings of the corresponding ParseIntError kinds. -/
def parseI32 (s : String) : Except String Int :=
  match s.data with
  | [] => .error "cannot parse integer from empty string"
  | c :: cs =>
    let (neg, digits) :=
      if c = '+' then (false, cs)
      else if c = '-' then (true, cs)
      else (false, c :: cs)
    if digits = [] then .error "invalid digit found in string"
    else if digits.any (fun d => ¬ d.isDigit) then
      .error "invalid digit found in string"
    else
      let v : Nat := digits.foldl (fun a d => a * 10 + (d.toNat - 48)) 0
      if neg then
        if v ≤ 2147483648 then .ok (-(v : Int))
        else .error "number too small to fit in target type"
      else
        if v ≤ 2147483647 then .ok (v : Int)
        else .error "number too large to fit in target type"

/-- Vec::join with a single space (used by the echo builtin). -/
def joinSpace : List String → String
  | [] => ""
  | [x] => x
  | x :: xs => x ++ " " ++ joinSpace xs

namespace Sh

/-- struct ShellState of main.rs: pending exit code and tracked current
directory. -/
structure ShellState where
  exit_code : Option Int
  pwd : String
  deriving DecidableEq, Repr

/-- Error kind distinguished by the cd builtin when canonicalize fails. -/
inductive IOErr where
  | notFound
  | other (msg : String) (kind : String)
  deriving DecidableEq, Repr

/-- Ambient process environment, made explicit: the PATH variable as read
by std::env::var (none when unset), the home directory, the filesystem
metadata oracle behind fs::metadata, and the canonicalizing resolver
behind fs::canonicalize. -/
structure Env where
  pathVar : Option String
  home : Option String
  fs : String → Option FileMeta
  canonicalize : String → Except IOErr String

/-- std::env::var(PATH).unwrap_or(empty). -/
def getPath (env : Env) : String := env.pathVar.getD ""

/-- echo builtin: space-joined argv, one printed line. -/
def echo (state : ShellState) (argv : List String) : ShellState × List String :=
  (state, [joinSpace argv])

/-- exit builtin: parse the optional code, defaulting to 0; a parse error
is printed and leaves the exit code untouched. -/
def exit (state : ShellState) (argv : List String) : ShellState × List String :=
  match argv.head? with
  | none => ({ state with exit_code := some 0 }, [])
  | some v =>
    match parseI32 v with
    | .error e => (state, [e])
    | .ok n => ({ state with exit_code := some n }, [])

/-- pwd builtin: print the tracked current directory. -/
def pwd (state : ShellState) (_argv : List String) : ShellState × List String :=
  (state, [state.pwd])

/-- cd builtin of main.rs: absent argument or tilde means the home
directory, otherwise the argument; the target is joined to the tracked
current directory and canonicalized; a not-found error is reported and
leaves the state unchanged. -/
def cd (env : Env) (state : ShellState) (argv : List String) :
    ShellState × List String :=
  let new_wd : Option String :=
    match argv.head? with
    | none => env.home
    | some dir => if dir = "~" then env.home else some dir
  match new_wd with
  | none => (state, ["failed to get new directory"])
  | some nw =>
    match env.canonicalize (joinPath state.pwd nw) with
    | .ok p => ({ state with pwd := p }, [])
    | .error .notFound => (state, ["cd: " ++ nw ++ ": No such file or directory"])
    | .error (.other msg kind) =>
      (state, ["Unexpected error: " ++ msg ++ ", " ++ kind])

/-- Names registered in BUILTIN_FUNCITONS, as dispatch tags. -/
inductive BuiltinTag where
  | echo
  | exit
  | type_fn
  | which
  | pwd
  | cd
  deriving DecidableEq, Repr

/-- Lookup in the builtin registry (exact, case-sensitive). -/
def lookupBuiltin (cmd : String) : Option BuiltinTag :=
  if cmd = "echo" then some .echo
  else if cmd = "exit" then some .exit
  else if cmd = "type" then some .type_fn
  else if cmd = "which" then some .which
  else if cmd = "pwd" then some .pwd
  else if cmd = "cd" then some .cd
  else none

/-- type builtin: builtin, external-with-resolved-path, or not found. -/
def type_fn (env : Env) (state : ShellState) (argv : List String) :
    ShellState × List String :=
  match argv.head? with
  | none => (state, ["type [cmd]"])
  | some cmd =>
    if (lookupBuiltin cmd).isSome then (state, [cmd ++ " is a shell builtin"])
    else
      match which_internal env.fs (getPath env) cmd with
      | some p => (state, [cmd ++ " is " ++ p])
      | none => (state, [cmd ++ ": not found"])

/-- which builtin: external path resolution alone. -/
def which (env : Env) (state : ShellState) (argv : List String) :
    ShellState × List String :=
  match argv.head? with
  | none => (state, ["which [cmd]"])
  | some cmd =>
    match which_internal env.fs (getPath env) cmd with
    | none => (state, [cmd ++ ": not found"])
    | some p => (state, [cmd ++ " is " ++ p])

/-- Dispatch a builtin tag to its action. -/
def runBuiltin : BuiltinTag → Env → ShellState → List String →
    ShellState × List String
  | .echo, _, state, argv => echo state argv
  | .exit, _, state, argv => exit state argv
  | .type_fn, env, state, argv => type_fn env state argv
  | .which, env, state, argv => which env state argv
  | .pwd, _, state, argv => pwd state argv
  | .cd, env, state, argv => cd env state argv

/-- eval of main.rs: empty line is a no-op; a builtin name dispatches to
the registry; otherwise the name is resolved on PATH and spawned (the
child's output is not shell output and its status does not alter the
state); otherwise the command-not-found report. -/
def eval (env : Env) (state : ShellState) (argv : List String) :
    ShellState × List String :=
  match argv with
  | [] => (state, [])
  | cmd :: rest =>
    match lookupBuiltin cmd with
    | some b => runBuiltin b env state rest
    | none =>
      match which_internal env.fs (getPath env) cmd with
      | some _ => (state, [])
      | none => (state, [cmd ++ ": command not found"])

/-- Outcome of driving the read loop of main over a finite list of input
lines: the loop terminated via exit, ran out of the supplied lines with
the loop still live, or the process aborted in a panic. -/
inductive RunOutcome where
  | exited (code : Int)
  | eof
  | panicked
  deriving DecidableEq, Repr

/-- The read-eval loop of main over a list of input lines: while the exit
code is unset, read a line, parse it, evaluate on success or print the
parse error on failure. -/
def runShell (env : Env) : ShellState → List String → RunOutcome × List String
  | state, lines =>
    match state.exit_code with
    | some c => (.exited c, [])
    | none =>
      match lines with
      | [] => (.eof, [])
      | l :: rest =>
        match parse l with
        | .panic => (.panicked, [])
        | .err _ =>
          let r := runShell env state rest
          (r.1, "QuoteMissing" :: r.2)
        | .ok argv =>
          let s := eval env state argv
          let r := runShell env s.1 rest
          (r.1, s.2 ++ r.2)

end Sh

/-- Output-redirection mode (from the specification, section 3). -/
inductive RedirMode where
  | write
  | append
  deriving DecidableEq, Repr

/-- A parsed command (from the specification, section 3): executable,
argument vector and per-stream redirection targets. -/
structure Command where
  executable : String
  argv : List String
  stdout_target : Option (String × RedirMode)
  stderr_target : Option (String × RedirMode)
  deriving DecidableEq, Repr

/-- Pending redirect stream selector of the command builder. -/
inductive PendTarget where
  | stdout
  | stderr
  deriving DecidableEq, Repr

/-- Modelled from the spec: the Command Builder of section 4.3 is absent
from src (eval consumes resolved words directly and implements no
redirection), so its scan is modelled from the specification text.  Words
are scanned left to right with a pending redirect target, initially
stdout: a bare 1 or 2 immediately followed by a redirect operator selects
the stream and is consumed; a redirect operator consumes the next word as
the target path with Write or Append mode and resets the pending target;
every other word is appended to argv.  A redirect operator with no
following word is malformed (the specification notes the reference
behavior aborts); it is modelled as returning none. -/
def buildAux : List String → PendTarget → Command → Option Command
  | [], _, c => some c
  | [w], _, c =>
    if w = ">" ∨ w = ">>" then none
    else some { c with argv := c.argv ++ [w] }
  | w :: r :: rest2, pend, c =>
    if (w = "1" ∨ w = "2") ∧ (r = ">" ∨ r = ">>") then
      buildAux (r :: rest2) (if w = "1" then .stdout else .stderr) c
    else if w = ">" ∨ w = ">>" then
      let mode := if w = ">" then RedirMode.write else RedirMode.append
      let c2 :=
        match pend with
        | .stdout => { c with stdout_target := some (r, mode) }
        | .stderr => { c with stderr_target := some (r, mode) }
      buildAux rest2 .stdout c2
    else
      buildAux (r :: rest2) pend { c with argv := c.argv ++ [w] }

/-- Modelled from the spec: build of section 4.3; none on an empty word
list, otherwise the first word is the executable and the rest are scanned
by buildAux. -/
def build : List String → Option Command
  | [] => none
  | exe :: rest => buildAux rest .stdout ⟨exe, [], none, none⟩

/-- A closed environment with no PATH variable, no home directory, an
empty filesystem and a canonicalizer that finds nothing. -/
def env0 : Sh.Env := ⟨none, none, fun _ => none, fun _ => .error .notFound⟩

/-- A closed filesystem holding exactly one executable regular file named
sh at the path sh relative to the process working directory. -/
def fsC9 : String → Option FileMeta :=
  fun p => if p = "sh" then some ⟨true, 0o111⟩ else none

/-- A closed environment for the cd builtin: a home directory, and a
canonicalizer for which exactly the path /old/missing does not exist. -/
def envW : Sh.Env :=
  ⟨none, some "/home/u", fun _ => none,
   fun s => if s = "/old/missing" then .error .notFound else .ok s⟩

/-!
Validation of the embedding against the unit tests of the repository
(mod tests in tokenize.rs and main.rs).
-/

example : Tok.tokenize "a b c".data = .ok ["a".data, "b".data, "c".data] := by decide
example : Tok.tokenize "echo a 2> b".data =
    .ok ["echo".data, "a".data, "2".data, ">".data, "b".data] := by decide
example : Tok.tokenize "    echo    hello world     ".data =
    .ok ["echo".data, "hello".data, "world".data] := by decide
example : Tok.tokenize "echo 'abcdef ghijkl'".data =
    .ok ["echo".data, "'abcdef ghijkl'".data] := by decide
example : Tok.tokenize "echo a\\ b".data = .ok ["echo".data, "a\\ b".data] := by decide
example : Sh.tokenize "a b c".data = .ok ["a".data, "b".data, "c".data] := by decide
example : Sh.tokenize "echo 'a\"b".data = .err .quoteMissing := by decide
example : Sh.tokenize "echo a\\ b".data = .ok ["echo".data, "a\\ b".data] := by decide
example : Sh.unescape "abc\\ def".data = "abc def".data := by decide
example : Sh.unescape "\"before\\   after\"".data = "before\\   after".data := by decide
example : Sh.unescape "'exe with \"quotes\"'".data = "exe with \"quotes\"".data := by decide
example : Sh.unescape "\"hello'script'\\\\n'world\"".data =
    "hello'script'\\n'world".data := by decide
example : Sh.unescape "\"hello\\\"insidequotes\"script\\\"".data =
    "hello\"insidequotesscript\"".data := by decide
example : Sh.unescape "'shell\\\\\\nscript'".data = "shell\\\\\\nscript".data := by decide
example : Sh.unescape "'example\\\"testhello\\\"shell'".data =
    "example\\\"testhello\\\"shell".data := by decide

/-- C1: the claim states that on every line with balanced quoting the
tokenizer never panics and returns one token per word or redirect
operator.  The code violates it: on the balanced two-word line with a
two-byte first character, raw_word finds the terminating space at
character index 1 and slices the string at byte offset 1, which is not a
character boundary, so the Rust process panics.  The ASCII redirect line
from the repository tests is included to show the shape the claim
describes on single-byte input. -/
theorem c1_tokenize_panics_on_balanced_line :
    balancedQuoting "é x".data = true ∧
    Tok.tokenize "é x".data = .panic ∧
    Tok.tokenize "echo a 2> b".data =
      .ok ["echo".data, "a".data, "2".data, ">".data, "b".data] := by
  decide

/-- C2: the claim states that every line reaching end-of-input with an
open quote fails with QuoteMissing.  The code violates it: on the line
with a two-byte first word followed by an unterminated quote, the token
push at the first space slices at byte offset 1, not a character
boundary, and the Rust process panics before the end of input is ever
reached.  The ASCII example of the claim does return QuoteMissing. -/
theorem c2_quote_missing_preempted_by_panic :
    endsInQuote "é 'a".data = true ∧
    Sh.tokenize "é 'a".data = .panic ∧
    Sh.tokenize "echo 'a".data = .err .quoteMissing := by
  decide

/-- C3 counterexample: the claim states that inside single quotes a
backslash is always emitted literally and never escapes the following
character.  On the token with a backslash directly before a single quote
inside a single-quoted span, the resolver drops the backslash and emits
the quote without closing the span: the output contains no backslash at
all. -/
theorem c3_counterexample :
    Sh.unescape "'a\\'b'".data = "a'b".data ∧
    ¬ '\\' ∈ Sh.unescape "'a\\'b'".data := by
  decide

/-- C3 as amended: resolve is total by construction; within a
single-quoted span an ordinary character is emitted unchanged, the
matching single quote closes the span and is not emitted, and a backslash
is emitted literally unless the next character is a single quote, in
which case the backslash is dropped and starts an escape, so the quote it
precedes is emitted literally without closing the span; the example of
the claim resolves as stated. -/
theorem c3_single_quote_resolution :
    (∀ (peek : Option Char) (c : Char), c ≠ '\\' → c ≠ '\'' →
      Sh.unescape_inside c peek ⟨false, some .singleQuote⟩ =
        (some c, ⟨false, some .singleQuote⟩)) ∧
    (∀ peek : Option Char,
      Sh.unescape_inside '\'' peek ⟨false, some .singleQuote⟩ =
        (none, ⟨false, none⟩)) ∧
    (Sh.unescape_inside '\\' (some '\'') ⟨false, some .singleQuote⟩ =
      (none, ⟨true, some .singleQuote⟩)) ∧
    (∀ peek : Option Char, peek ≠ some '\'' →
      Sh.unescape_inside '\\' peek ⟨false, some .singleQuote⟩ =
        (some '\\', ⟨false, some .singleQuote⟩)) ∧
    (∀ (c : Char) (peek : Option Char) (q : Option Quote),
      Sh.unescape_inside c peek ⟨true, q⟩ = (some c, ⟨false, q⟩)) ∧
    Sh.unescape "'a\\\"b'".data = "a\\\"b".data := by
  refine ⟨?_, ?_, ?_, ?_, ?_, ?_⟩
  · intro peek c h1 h2
    simp [Sh.unescape_inside, Sh.toEscape, h1, h2]
  · intro peek
    simp [Sh.unescape_inside, Sh.toEscape]
  · simp [Sh.unescape_inside, Sh.toEscape]
  · intro peek h
    simp [Sh.unescape_inside, Sh.toEscape, h]
  · intro c peek q
    simp [Sh.unescape_inside]
  · decide

/-- C3 witness: the amended characterization applied at concrete inputs,
an ordinary character and a backslash not followed by a single quote. -/
theorem c3_witness :
    Sh.unescape_inside 'z' (some 'x') ⟨false, some .singleQuote⟩ =
      (some 'z', ⟨false, some .singleQuote⟩) ∧
    Sh.unescape_inside '\\' (some 'x') ⟨false, some .singleQuote⟩ =
      (some '\\', ⟨false, some .singleQuote⟩) :=
  ⟨c3_single_quote_resolution.1 (some 'x') 'z' (by decide) (by decide),
   c3_single_quote_resolution.2.2.2.1 (some 'x') (by decide)⟩

/-- C4: within a double-quoted span a backslash before the double quote
or before another backslash starts an escape (the backslash is dropped
and the escaped character then emitted), a backslash before anything else
is emitted literally and the following character is then processed
normally (hence also emitted literally), the matching unescaped double
quote closes the span and is not emitted, and the example of the claim
resolves as stated. -/
theorem c4_double_quote_resolution :
    (∀ peek : Option Char, peek = some '"' ∨ peek = some '\\' →
      Sh.unescape_inside '\\' peek ⟨false, some .doubleQuote⟩ =
        (none, ⟨true, some .doubleQuote⟩)) ∧
    (∀ (c : Char) (peek : Option Char) (q : Option Quote),
      Sh.unescape_inside c peek ⟨true, q⟩ = (some c, ⟨false, q⟩)) ∧
    (∀ peek : Option Char, peek ≠ some '"' → peek ≠ some '\\' →
      Sh.unescape_inside '\\' peek ⟨false, some .doubleQuote⟩ =
        (some '\\', ⟨false, some .doubleQuote⟩)) ∧
    (∀ (peek : Option Char) (c : Char), c ≠ '\\' → c ≠ '"' →
      Sh.unescape_inside c peek ⟨false, some .doubleQuote⟩ =
        (some c, ⟨false, some .doubleQuote⟩)) ∧
    (∀ peek : Option Char,
      Sh.unescape_inside '"' peek ⟨false, some .doubleQuote⟩ =
        (none, ⟨false, none⟩)) ∧
    Sh.unescape "\"a\\\\b\"".data = "a\\b".data := by
  refine ⟨?_, ?_, ?_, ?_, ?_, ?_⟩
  · intro peek h
    simp [Sh.unescape_inside, Sh.toEscape, h]
  · intro c peek q
    simp [Sh.unescape_inside]
  · intro peek h1 h2
    simp [Sh.unescape_inside, Sh.toEscape, h1, h2]
  · intro peek c h1 h2
    simp [Sh.unescape_inside, Sh.toEscape, h1, h2]
  · intro peek
    simp [Sh.unescape_inside, Sh.toEscape]
  · decide

/-- C4 witness: the characterization applied at concrete inputs, a
backslash before a double quote and a backslash before an ordinary
character. -/
theorem c4_witness :
    Sh.unescape_inside '\\' (some '"') ⟨false, some .doubleQuote⟩ =
      (none, ⟨true, some .doubleQuote⟩) ∧
    Sh.unescape_inside '\\' (some 'n') ⟨false, some .doubleQuote⟩ =
      (some '\\', ⟨false, some .doubleQuote⟩) :=
  ⟨c4_double_quote_resolution.1 (some '"') (Or.inl rfl),
   c4_double_quote_resolution.2.2.1 (some 'n') (by decide) (by decide)⟩

/-- C5: build on the empty word list returns none, and on the word list
echo a 2 gt b returns executable echo, argv with the single word a, the
stderr stream redirected to b in Write mode, and no stdout target; the
bare 2 before the redirect operator selects the stderr stream and is
consumed rather than added to argv. -/
theorem c5_build :
    build [] = none ∧
    build ["echo", "a", "2", ">", "b"] =
      some ⟨"echo", ["a"], none, some ("b", RedirMode.write)⟩ := by
  decide

/-- C6: for every environment and state, evaluating a line whose first
word is neither a registered builtin name nor resolvable on the PATH
directory list prints the command-not-found report and returns the state
unchanged, so the read loop continues. -/
theorem c6_command_not_found (env : Sh.Env) (state : Sh.ShellState)
    (cmd : String) (args : List String)
    (hb : Sh.lookupBuiltin cmd = none)
    (hw : which_internal env.fs (Sh.getPath env) cmd = none) :
    Sh.eval env state (cmd :: args) = (state, [cmd ++ ": command not found"]) := by
  simp [Sh.eval, hb, hw]

/-- C6 witness: in the environment with no PATH and an empty filesystem
the word nosuchcmd reports command not found with the state unchanged. -/
theorem c6_witness :
    Sh.eval env0 ⟨none, "/"⟩ ["nosuchcmd"] =
      (⟨none, "/"⟩, ["nosuchcmd: command not found"]) :=
  c6_command_not_found env0 ⟨none, "/"⟩ "nosuchcmd" [] (by decide) (by decide)

/-- C7: the cd builtin with an argument other than tilde joins it to the
tracked current directory and canonicalizes: a not-found error reports
the message and leaves the state, hence its current directory, unchanged;
success replaces the current directory with the canonicalized path; an
absent argument or a tilde argument is first mapped to the home
directory. -/
theorem c7_cd (env : Sh.Env) (state : Sh.ShellState) (dir : String)
    (hdir : dir ≠ "~") :
    (env.canonicalize (joinPath state.pwd dir) = .error .notFound →
      Sh.cd env state [dir] =
        (state, ["cd: " ++ dir ++ ": No such file or directory"])) ∧
    (∀ p, env.canonicalize (joinPath state.pwd dir) = .ok p →
      Sh.cd env state [dir] = ({ state with pwd := p }, [])) ∧
    (∀ h p, env.home = some h →
      env.canonicalize (joinPath state.pwd h) = .ok p →
      Sh.cd env state [] = ({ state with pwd := p }, []) ∧
      Sh.cd env state ["~"] = ({ state with pwd := p }, [])) := by
  refine ⟨?_, ?_, ?_⟩
  · intro hc
    simp [Sh.cd, hdir, hc]
  · intro p hc
    simp [Sh.cd, hdir, hc]
  · intro h p hh hc
    constructor <;> simp [Sh.cd, hh, hc]

/-- C7 witness: with the canonicalizer of envW, cd missing reports the
not-found message and keeps the current directory /old, cd sub moves to
/old/sub, and both bare cd and cd tilde move to the home directory. -/
theorem c7_witness :
    Sh.cd envW ⟨none, "/old"⟩ ["missing"] =
      (⟨none, "/old"⟩, ["cd: missing: No such file or directory"]) ∧
    Sh.cd envW ⟨none, "/old"⟩ ["sub"] = (⟨none, "/old/sub"⟩, []) ∧
    Sh.cd envW ⟨none, "/old"⟩ [] = (⟨none, "/home/u"⟩, []) ∧
    Sh.cd envW ⟨none, "/old"⟩ ["~"] = (⟨none, "/home/u"⟩, []) := by
  have hm := c7_cd envW ⟨none, "/old"⟩ "missing" (by decide)
  have hs := c7_cd envW ⟨none, "/old"⟩ "sub" (by decide)
  have hh := hs.2.2 "/home/u" "/home/u" rfl rfl
  exact ⟨hm.1 rfl, hs.2.1 "/old/sub" rfl, hh.1, hh.2⟩

/-- C8: the exit builtin with an argument that fails integer parsing
prints the parse error and returns the state with the exit code still
unset, so the loop continues; with an argument parsing to n it sets the
exit code to n. -/
theorem c8_exit (state : Sh.ShellState) (arg : String)
    (h0 : state.exit_code = none) :
    (∀ e, parseI32 arg = .error e →
      Sh.exit state [arg] = (state, [e]) ∧
      (Sh.exit state [arg]).1.exit_code = none) ∧
    (∀ n, parseI32 arg = .ok n →
      Sh.exit state [arg] = ({ state with exit_code := some n }, [])) := by
  constructor
  · intro e he
    simp [Sh.exit, he, h0]
  · intro n hn
    simp [Sh.exit, hn]

/-- C8 witness: exit abc reports the invalid-digit error and leaves the
exit code unset; exit 3 sets the exit code to 3. -/
theorem c8_witness :
    Sh.exit ⟨none, "/"⟩ ["abc"] =
      (⟨none, "/"⟩, ["invalid digit found in string"]) ∧
    Sh.exit ⟨none, "/"⟩ ["3"] = (⟨some 3, "/"⟩, []) := by
  have ha := (c8_exit ⟨none, "/"⟩ "abc" rfl).1 "invalid digit found in string" rfl
  have hb := (c8_exit ⟨none, "/"⟩ "3" rfl).2 3 rfl
  exact ⟨ha.1, hb⟩

/-- C9 counterexample: the claim states that with PATH unset or empty no
directory is searched and every lookup returns not found.  With the empty
PATH, split produces the single empty directory entry, the empty
directory joined with the command name is the name itself, and in a
filesystem where sh is an executable regular file relative to the process
working directory the lookup succeeds. -/
theorem c9_counterexample :
    which_internal fsC9 "" "sh" = some "sh" ∧
    which_internal fsC9 "" "sh" ≠ none := by
  decide

/-- C9 as amended: with the PATH variable unset or set to the empty
string, resolution searches exactly the single empty directory entry
produced by splitting the empty string on colons: the command name is
checked as the path obtained by joining it to the empty directory (the
name itself), and the lookup returns that path precisely when the
filesystem shows it as a regular file with an execute bit, not-found
otherwise. -/
theorem c9_empty_path (pv : Option String) (fs : String → Option FileMeta)
    (cmd : String) (h : pv = none ∨ pv = some "") :
    which_internal fs (pv.getD "") cmd =
      match fs (joinPath "" cmd) with
      | some m =>
        if m.is_file ∧ m.mode &&& 0o111 ≠ 0 then some (joinPath "" cmd) else none
      | none => none := by
  have hpv : pv.getD "" = "" := by
    rcases h with h | h <;> subst h <;> rfl
  rw [hpv]
  show whichGo fs cmd (splitColon "") = _
  have hs : splitColon "" = [""] := rfl
  rw [hs]
  cases hfs : fs (joinPath "" cmd) <;> simp [whichGo, hfs]

/-- C9 witness: the amended characterization applied with an unset PATH
variable and the one-file filesystem. -/
theorem c9_witness :
    which_internal fsC9 ((none : Option String).getD "") "sh" = some "sh" := by
  rw [c9_empty_path none fsC9 "sh" (Or.inl rfl)]
  decide

/-- C10: the exit builtin with no arguments sets the exit code to 0, and
driving the read loop of main with the single input line exit from any
live state terminates the loop with process exit code 0. -/
theorem c10_bare_exit (env : Sh.Env) (state : Sh.ShellState)
    (h0 : state.exit_code = none) :
    Sh.exit state [] = ({ state with exit_code := some 0 }, []) ∧
    Sh.runShell env state ["exit"] = (.exited 0, []) := by
  obtain ⟨ec, d⟩ := state
  cases ec with
  | none => exact ⟨rfl, rfl⟩
  | some c => simp at h0

/-- C10 witness: in the closed environment with no PATH and empty
filesystem, the line exit exits the loop with code 0. -/
theorem c10_witness :
    Sh.runShell env0 ⟨none, "/"⟩ ["exit"] = (.exited 0, []) :=
  (c10_bare_exit env0 ⟨none, "/"⟩ rfl).2
